import Mathlib

/-!
Verification of the theme-based ANSI colorizer core (`src/colorize.js`).

The embedding models the module-level `COLORS` style table, the mutable
`THEMES` registry, and the `ColorizeLogger` class.  JavaScript values that
flow through the untyped API are modelled by `JsVal`; `Option` models
`null`/`undefined` arguments; an operation that would raise a `TypeError`
(destructuring a missing theme category) returns `none`.  The console is an
explicit append-only list of output lines.
-/

namespace Colorize

/-- The `COLORS.reset` escape sequence that terminates every styled string. -/
def RESET : String := "\x1b[0m"

/-- The fixed `COLORS` table mapping style names to ANSI escape sequences. -/
def COLORS : List (String × String) :=
  [("reset", "\x1b[0m"), ("bright", "\x1b[1m"), ("dim", "\x1b[2m"),
   ("underscore", "\x1b[4m"), ("blink", "\x1b[5m"), ("reverse", "\x1b[7m"),
   ("hidden", "\x1b[8m"),
   ("black", "\x1b[30m"), ("red", "\x1b[31m"), ("green", "\x1b[32m"),
   ("yellow", "\x1b[33m"), ("blue", "\x1b[34m"), ("magenta", "\x1b[35m"),
   ("cyan", "\x1b[36m"), ("white", "\x1b[37m"),
   ("bgBlack", "\x1b[40m"), ("bgRed", "\x1b[41m"), ("bgGreen", "\x1b[42m"),
   ("bgYellow", "\x1b[43m"), ("bgBlue", "\x1b[44m"), ("bgMagenta", "\x1b[45m"),
   ("bgCyan", "\x1b[46m"), ("bgWhite", "\x1b[47m")]

/-- Property lookup `COLORS[k]`: `some` escape sequence when the key is
present, `none` (JS `undefined`) otherwise. -/
def colorsLookup (k : String) : Option String :=
  (COLORS.find? (fun p => p.1 == k)).map (fun p => p.2)

/-- One theme category entry, e.g. `{ color: 'green', bgColor: 'bgRed', style: null }`.
`none` models an absent or `null` field. -/
structure StyleSpec where
  color : Option String
  bgColor : Option String
  style : Option String
deriving DecidableEq, Repr

/-- A theme object: each of the six semantic categories may be present or
absent (`none` models a missing property, i.e. JS `undefined`). -/
structure ThemeObj where
  success : Option StyleSpec
  error : Option StyleSpec
  warning : Option StyleSpec
  info : Option StyleSpec
  debug : Option StyleSpec
  prompt : Option StyleSpec
deriving DecidableEq, Repr

/-- The JavaScript values that reach the untyped API surface
(`setTheme`'s first argument, `createTheme`'s config, `table`'s data,
the stored registry entries and the active `this.theme`). -/
inductive JsVal where
  | obj (t : ThemeObj)
  | null
  | str (s : String)
  | num (n : Int)
  | boolean (b : Bool)
  | undef
deriving DecidableEq, Repr

/-- JS truthiness of a value. -/
def jsTruthy : JsVal → Bool
  | JsVal.obj _ => true
  | JsVal.null => false
  | JsVal.str s => !s.isEmpty
  | JsVal.num n => n != 0
  | JsVal.boolean b => b
  | JsVal.undef => false

/-- `typeof v === 'object'` (true for `null`, the classic JS quirk). -/
def typeofIsObject : JsVal → Bool
  | JsVal.obj _ => true
  | JsVal.null => true
  | _ => false

/-- `v === 'string'` or a plain theme object: the two shapes `setTheme`
distinguishes before its final fallback branch. -/
def isStrOrObj : JsVal → Bool
  | JsVal.str _ => true
  | JsVal.obj _ => true
  | _ => false

/-- The module-level `THEMES` registry: property name to stored value. -/
abbrev Registry := List (String × JsVal)

/-- Property lookup `THEMES[k]` (first binding wins; assignment prepends). -/
def registryLookup (reg : Registry) (k : String) : Option JsVal :=
  (reg.find? (fun p => p.1 == k)).map (fun p => p.2)

/-- Property assignment `THEMES[k] = v` (shadowing any previous binding). -/
def registrySet (reg : Registry) (k : String) (v : JsVal) : Registry :=
  (k, v) :: reg

/-- Built-in `default` theme. -/
def themesDefault : ThemeObj :=
  ⟨some ⟨some "green", none, none⟩,
   some ⟨some "red", none, none⟩,
   some ⟨some "yellow", none, none⟩,
   some ⟨some "cyan", none, none⟩,
   some ⟨some "magenta", none, none⟩,
   some ⟨some "white", none, some "bright"⟩⟩

/-- Built-in `dark` theme. -/
def themesDark : ThemeObj :=
  ⟨some ⟨some "green", none, some "bright"⟩,
   some ⟨some "red", none, some "bright"⟩,
   some ⟨some "yellow", none, some "bright"⟩,
   some ⟨some "blue", none, some "bright"⟩,
   some ⟨some "magenta", none, some "dim"⟩,
   some ⟨some "white", none, some "underscore"⟩⟩

/-- Built-in `light` theme. -/
def themesLight : ThemeObj :=
  ⟨some ⟨some "green", none, some "dim"⟩,
   some ⟨some "red", none, some "dim"⟩,
   some ⟨some "yellow", none, some "dim"⟩,
   some ⟨some "blue", none, some "dim"⟩,
   some ⟨some "magenta", none, some "dim"⟩,
   some ⟨some "black", none, some "bright"⟩⟩

/-- Built-in `minimal` theme. -/
def themesMinimal : ThemeObj :=
  ⟨some ⟨some "green", none, none⟩,
   some ⟨some "red", none, none⟩,
   some ⟨some "yellow", none, none⟩,
   some ⟨some "white", none, none⟩,
   some ⟨some "white", none, some "dim"⟩,
   some ⟨some "white", none, none⟩⟩

/-- Built-in `vibrant` theme. -/
def themesVibrant : ThemeObj :=
  ⟨some ⟨some "green", some "bgBlack", some "bright"⟩,
   some ⟨some "white", some "bgRed", some "bright"⟩,
   some ⟨some "black", some "bgYellow", none⟩,
   some ⟨some "white", some "bgBlue", some "bright"⟩,
   some ⟨some "white", some "bgMagenta", none⟩,
   some ⟨some "black", some "bgCyan", some "bright"⟩⟩

/-- The `THEMES` registry as seeded at module load. -/
def THEMES : Registry :=
  [("default", JsVal.obj themesDefault),
   ("dark", JsVal.obj themesDark),
   ("light", JsVal.obj themesLight),
   ("minimal", JsVal.obj themesMinimal),
   ("vibrant", JsVal.obj themesVibrant)]

/-- The `ColorizeLogger` instance state: `this.theme` and `this.options.enabled`. -/
structure Logger where
  theme : JsVal
  enabled : Bool
deriving DecidableEq, Repr

/-- Property access `THEMES.default` (JS `undefined` when absent). -/
def themesDefaultEntry (reg : Registry) : JsVal :=
  match registryLookup reg "default" with
  | some v => v
  | none => JsVal.undef

/-- The `else if (THEMES[theme]) ... else THEMES.default` resolution of a
string theme name inside `setTheme`. -/
def resolveName (reg : Registry) (s : String) : JsVal :=
  match registryLookup reg s with
  | some v => if jsTruthy v then v else themesDefaultEntry reg
  | none => themesDefaultEntry reg

/-- The string branch of `setTheme`: `'custom'` with a truthy `customTheme`
activates the custom object, otherwise the name is resolved in the registry. -/
def setThemeStr (reg : Registry) (s : String) (customTheme : Option ThemeObj) : JsVal :=
  match customTheme with
  | some ct => if s = "custom" then JsVal.obj ct else resolveName reg s
  | none => resolveName reg s

/-- `ColorizeLogger.setTheme(theme, customTheme)` against registry `reg`.
A string is resolved via `setThemeStr`; a non-null object is activated as-is;
anything else falls back to `THEMES.default`. -/
def setTheme (reg : Registry) (st : Logger) (theme : JsVal)
    (customTheme : Option ThemeObj) : Logger :=
  match theme with
  | JsVal.str s => Logger.mk (setThemeStr reg s customTheme) st.enabled
  | JsVal.obj t => Logger.mk (JsVal.obj t) st.enabled
  | _ => Logger.mk (themesDefaultEntry reg) st.enabled

/-- `ColorizeLogger.createTheme(name, themeConfig)`: stores the config when
`typeof themeConfig === 'object'` (the model's `name` is always a string, so
the `typeof name === 'string'` conjunct holds). -/
def createTheme (reg : Registry) (name : String) (themeConfig : JsVal) : Registry :=
  if typeofIsObject themeConfig then registrySet reg name themeConfig else reg

/-- `ColorizeLogger.setEnabled(enabled)`. -/
def setEnabled (st : Logger) (enabled : Bool) : Logger :=
  Logger.mk st.theme enabled

/-- The escape sequence one style argument contributes inside `_colorize`:
empty unless the argument is truthy and present in `COLORS`. -/
def codeFor (arg : Option String) : String :=
  match arg with
  | some s =>
      if s.isEmpty then ""
      else
        match colorsLookup s with
        | some esc => esc
        | none => ""
  | none => ""

/-- `ColorizeLogger._colorize(text, color, bgColor, style)`: when disabled the
text passes through; otherwise the style, background and color codes are
accumulated in that order, then the text and `COLORS.reset` are appended. -/
def colorize (enabled : Bool) (text : String)
    (color bgColor style : Option String) : String :=
  if enabled = false then
    text
  else
    let result : String := ""
    let result := result ++ codeFor style
    let result := result ++ codeFor bgColor
    let result := result ++ codeFor color
    result ++ text ++ RESET

/-- `ColorizeLogger.format`: delegates to `_colorize` with the instance's flag. -/
def format (st : Logger) (text : String) (color bgColor style : Option String) : String :=
  colorize st.enabled text color bgColor style

/-- One entry on the console sink: a `console.log` line or a `console.table`
rendering. -/
inductive OutLine where
  | line (s : String)
  | tableOf (d : JsVal)
deriving DecidableEq, Repr

/-- `ColorizeLogger.log`: writes the colorized text as one line and returns
the instance. -/
def log (st : Logger) (out : List OutLine) (text : String)
    (color bgColor style : Option String) : Logger × List OutLine :=
  (st, out ++ [OutLine.line (colorize st.enabled text color bgColor style)])

/-- Reading one category off `this.theme`: yields the category's record when
the active theme is an object carrying it; `none` models the `TypeError` of
accessing a property of `null`/`undefined` or destructuring `undefined`. -/
def themeCategory (th : JsVal) (category : ThemeObj → Option StyleSpec) :
    Option StyleSpec :=
  match th with
  | JsVal.obj t => category t
  | _ => none

/-- JS `a || b` on the `customStyle || style` operands (empty string is falsy). -/
def jsOrStr (a b : Option String) : Option String :=
  match a with
  | some s => if s.isEmpty then b else some s
  | none => b

/-- `ColorizeLogger.success(text, customStyle)`; `none` models a thrown
`TypeError` when the active theme has no `success` category. -/
def success (st : Logger) (out : List OutLine) (text : String)
    (customStyle : Option String) : Option (Logger × List OutLine) :=
  match themeCategory st.theme ThemeObj.success with
  | none => none
  | some sp => some (log st out text sp.color sp.bgColor (jsOrStr customStyle sp.style))

/-- `ColorizeLogger.error(text, customStyle)`. -/
def error (st : Logger) (out : List OutLine) (text : String)
    (customStyle : Option String) : Option (Logger × List OutLine) :=
  match themeCategory st.theme ThemeObj.error with
  | none => none
  | some sp => some (log st out text sp.color sp.bgColor (jsOrStr customStyle sp.style))

/-- `ColorizeLogger.warning(text, customStyle)`. -/
def warning (st : Logger) (out : List OutLine) (text : String)
    (customStyle : Option String) : Option (Logger × List OutLine) :=
  match themeCategory st.theme ThemeObj.warning with
  | none => none
  | some sp => some (log st out text sp.color sp.bgColor (jsOrStr customStyle sp.style))

/-- `ColorizeLogger.info(text, customStyle)`. -/
def info (st : Logger) (out : List OutLine) (text : String)
    (customStyle : Option String) : Option (Logger × List OutLine) :=
  match themeCategory st.theme ThemeObj.info with
  | none => none
  | some sp => some (log st out text sp.color sp.bgColor (jsOrStr customStyle sp.style))

/-- `ColorizeLogger.debug(text, customStyle)`. -/
def debug (st : Logger) (out : List OutLine) (text : String)
    (customStyle : Option String) : Option (Logger × List OutLine) :=
  match themeCategory st.theme ThemeObj.debug with
  | none => none
  | some sp => some (log st out text sp.color sp.bgColor (jsOrStr customStyle sp.style))

/-- `ColorizeLogger.formatPrompt(text)`: formats with the active theme's
`prompt` category; `none` models the `TypeError` when it is missing. -/
def formatPrompt (st : Logger) (text : String) : Option String :=
  match themeCategory st.theme ThemeObj.prompt with
  | none => none
  | some sp => some (format st text sp.color sp.bgColor sp.style)

/-- `ColorizeLogger.table(data, title)`: a falsy or non-object `data` is
reported through `this.error` and nothing else happens; otherwise a truthy
title is emitted through `this.info` and then `console.table(data)` renders. -/
def table (st : Logger) (out : List OutLine) (data : JsVal)
    (title : Option String) : Option (Logger × List OutLine) :=
  if jsTruthy data = false ∨ typeofIsObject data = false then
    match error st out "Invalid data for table display" none with
    | none => none
    | some r => some r
  else
    let step :=
      match title with
      | some ttl => if ttl.isEmpty then some (st, out) else info st out ttl none
      | none => some (st, out)
    match step with
    | none => none
    | some (st1, out1) => some (st1, out1 ++ [OutLine.tableOf data])

/-- The singleton `new ColorizeLogger()`: constructor defaults then
`setTheme('default', null)`. -/
def newLogger : Logger :=
  setTheme THEMES (Logger.mk JsVal.undef true) (JsVal.str "default") none

/-- A theme object with every category absent (the JS empty object `{}`). -/
def emptyThemeObj : ThemeObj := ⟨none, none, none, none, none, none⟩

/-- Whether a theme object carries all six semantic categories. -/
def definesAllSix (t : ThemeObj) : Bool :=
  t.success.isSome && t.error.isSome && t.warning.isSome &&
  t.info.isSome && t.debug.isSome && t.prompt.isSome

/-! ### Supporting lemmas -/

/-- With styling disabled, `log` writes the raw text. -/
theorem log_disabled (st : Logger) (h : st.enabled = false) (out : List OutLine)
    (text : String) (c b s : Option String) :
    log st out text c b s = (st, out ++ [OutLine.line text]) := by
  simp [log, colorize, h]

/-- The enabled branch of `_colorize` is the concatenation of the three
resolved codes, the text, and `RESET`. -/
theorem colorize_enabled (text : String) (c b s : Option String) :
    colorize true text c b s = codeFor s ++ (codeFor b ++ (codeFor c ++ (text ++ RESET))) := by
  simp [colorize, String.empty_append, String.append_assoc]

/-- Any of the five semantic methods, when it completes with styling
disabled, wrote the raw text as its single line. -/
theorem semanticOp_disabled (st : Logger) (h : st.enabled = false)
    (cat : ThemeObj → Option StyleSpec) (out : List OutLine) (text : String)
    (cs : Option String) (r : Logger × List OutLine)
    (hr : (match themeCategory st.theme cat with
           | none => none
           | some sp => some (log st out text sp.color sp.bgColor (jsOrStr cs sp.style)))
          = some r) :
    r = (st, out ++ [OutLine.line text]) := by
  cases hcat : themeCategory st.theme cat with
  | none => rw [hcat] at hr; exact absurd hr (by simp)
  | some sp =>
      rw [hcat] at hr
      have := Option.some.inj hr
      rw [← this, log_disabled st h]

/-- Claim C1: with `enabled = false`, `format` returns the text unchanged, and
the formatting step of each semantic operation (and of `formatPrompt`) emits
the text unchanged, for every color, background, style and custom override. -/
theorem C1_disabled_identity (st : Logger) (h : st.enabled = false)
    (text : String) (c b s cs : Option String) (out : List OutLine) :
    format st text c b s = text ∧
    (∀ r, success st out text cs = some r → r = (st, out ++ [OutLine.line text])) ∧
    (∀ r, error st out text cs = some r → r = (st, out ++ [OutLine.line text])) ∧
    (∀ r, warning st out text cs = some r → r = (st, out ++ [OutLine.line text])) ∧
    (∀ r, info st out text cs = some r → r = (st, out ++ [OutLine.line text])) ∧
    (∀ r, debug st out text cs = some r → r = (st, out ++ [OutLine.line text])) ∧
    (∀ r, formatPrompt st text = some r → r = text) := by
  refine ⟨by simp [format, colorize, h], ?_, ?_, ?_, ?_, ?_, ?_⟩
  · exact fun r hr => semanticOp_disabled st h ThemeObj.success out text cs r hr
  · exact fun r hr => semanticOp_disabled st h ThemeObj.error out text cs r hr
  · exact fun r hr => semanticOp_disabled st h ThemeObj.warning out text cs r hr
  · exact fun r hr => semanticOp_disabled st h ThemeObj.info out text cs r hr
  · exact fun r hr => semanticOp_disabled st h ThemeObj.debug out text cs r hr
  · intro r hr
    cases hcat : themeCategory st.theme ThemeObj.prompt with
    | none => rw [formatPrompt, hcat] at hr; exact absurd hr (by simp)
    | some sp =>
        rw [formatPrompt, hcat] at hr
        have := Option.some.inj hr
        rw [← this, format, h, colorize]
        simp

/-- Witness for C1 at a concrete disabled logger. -/
theorem C1_disabled_identity_witness :
    (Logger.mk (JsVal.obj themesDefault) false).enabled = false ∧
    format (Logger.mk (JsVal.obj themesDefault) false) "hi"
      (some "red") (some "bgBlue") (some "bright") = "hi" :=
  ⟨rfl, (C1_disabled_identity (Logger.mk (JsVal.obj themesDefault) false) rfl "hi"
    (some "red") (some "bgBlue") (some "bright") (some "dim") []).1⟩

/-- Claim C2: with `enabled = true`, `format` is the concatenation of the
style, background and color escape codes (empty for an absent or unknown
argument), the text, and `RESET`; in particular for a valid color the result
is some prefix, then the text, then `RESET`. -/
theorem C2_enabled_concatenation (st : Logger) (hen : st.enabled = true)
    (text : String) (c b s : Option String) (cv : String)
    (hcv : (colorsLookup cv).isSome = true) :
    format st text c b s = codeFor s ++ (codeFor b ++ (codeFor c ++ (text ++ RESET))) ∧
    ∃ pre, format st text (some cv) none none = pre ++ (text ++ RESET) := by
  constructor
  · rw [format, hen]; exact colorize_enabled text c b s
  · refine ⟨codeFor (some cv), ?_⟩
    rw [format, hen, colorize_enabled]
    simp [codeFor, String.empty_append]

/-- Witness for C2 at a concrete enabled logger and the valid color `red`. -/
theorem C2_enabled_concatenation_witness :
    newLogger.enabled = true ∧ (colorsLookup "red").isSome = true ∧
    format newLogger "hi" (some "red") none (some "zap")
      = codeFor (some "zap") ++ (codeFor none ++ (codeFor (some "red") ++ ("hi" ++ RESET))) :=
  ⟨rfl, rfl, (C2_enabled_concatenation newLogger rfl "hi" (some "red") none
    (some "zap") "red" rfl).1⟩

/-- Claim C10: with `enabled = true` and no argument resolving to an escape
sequence, `format` still appends `RESET`: the result is exactly the text
followed by `"\x1b[0m"`, hence never equal to the input text. -/
theorem C10_reset_even_unstyled (st : Logger) (hen : st.enabled = true)
    (text : String) (c b s : Option String)
    (hc : codeFor c = "") (hb : codeFor b = "") (hs : codeFor s = "") :
    format st text c b s = text ++ "\x1b[0m" ∧ format st text c b s ≠ text := by
  have he : format st text c b s = text ++ "\x1b[0m" := by
    rw [format, hen, colorize_enabled, hs, hb, hc]
    simp [String.empty_append, RESET]
  refine ⟨he, ?_⟩
  rw [he]
  intro hEq
  have hlen : (text ++ "\x1b[0m").length = text.length := by rw [hEq]
  rw [String.length_append] at hlen
  simp at hlen
  exact absurd hlen (by decide)

/-- Witness for C10 with absent color, unknown background and absent style. -/
theorem C10_reset_even_unstyled_witness :
    newLogger.enabled = true ∧ codeFor none = "" ∧ codeFor (some "purple") = "" ∧
    format newLogger "hi" none (some "purple") none = "hi" ++ "\x1b[0m" :=
  ⟨rfl, rfl, rfl, (C10_reset_even_unstyled newLogger rfl "hi" none
    (some "purple") none rfl rfl rfl).1⟩

/-- Counterexample to C3: `setTheme` activates a supplied theme object as-is,
even the empty object, which defines none of the six categories. -/
theorem C3_counterexample :
    (setTheme THEMES newLogger (JsVal.obj emptyThemeObj) none).theme
      = JsVal.obj emptyThemeObj ∧
    definesAllSix emptyThemeObj = false := by decide

/-- Claim C3 (amended): `setTheme` falls back to the built-in default theme
for an unrecognized string name and for a non-string, non-object argument
(such as `null`); the fallback theme defines all six categories.  A theme
object supplied directly is activated without category validation. -/
theorem C3_fallback_scope (st : Logger) (s : String) (v : JsVal)
    (h1 : registryLookup THEMES s = none) (h2 : isStrOrObj v = false) :
    (setTheme THEMES st (JsVal.str s) none).theme = JsVal.obj themesDefault ∧
    (setTheme THEMES st v none).theme = JsVal.obj themesDefault ∧
    definesAllSix themesDefault = true := by
  refine ⟨?_, ?_, by decide⟩
  · simp [setTheme, setThemeStr, resolveName, h1]
    decide
  · cases v with
    | str s2 => simp [isStrOrObj] at h2
    | obj t => simp [isStrOrObj] at h2
    | null => simp [setTheme]; decide
    | num n => simp [setTheme]; decide
    | boolean b => simp [setTheme]; decide
    | undef => simp [setTheme]; decide

/-- Witness for C3 (amended) at the unknown name `nope` and the value `null`. -/
theorem C3_fallback_scope_witness :
    registryLookup THEMES "nope" = none ∧ isStrOrObj JsVal.null = false ∧
    (setTheme THEMES newLogger (JsVal.str "nope") none).theme = JsVal.obj themesDefault :=
  ⟨by decide, rfl, (C3_fallback_scope newLogger "nope" JsVal.null (by decide) rfl).1⟩

/-- Counterexample to C4: after activating the empty theme object, the
`success` operation raises a `TypeError` (modelled as `none`) instead of
completing with a fallback result. -/
theorem C4_counterexample :
    success (setTheme THEMES newLogger (JsVal.obj emptyThemeObj) none) [] "x" none
      = none := by decide

/-- Claim C4 (amended): every operation is total when the active theme is an
object defining all six categories; `setTheme`, `createTheme`, `setEnabled`
and `format` are total unconditionally (they are plain functions of the
model), while the semantic operations, `formatPrompt` and `table` complete
whenever the needed categories are present. -/
theorem C4_total_on_wellformed_theme (st : Logger) (t : ThemeObj)
    (h1 : st.theme = JsVal.obj t) (h2 : definesAllSix t = true)
    (out : List OutLine) (text : String) (cs : Option String)
    (d : JsVal) (ttl : Option String) :
    (success st out text cs).isSome = true ∧
    (error st out text cs).isSome = true ∧
    (warning st out text cs).isSome = true ∧
    (info st out text cs).isSome = true ∧
    (debug st out text cs).isSome = true ∧
    (formatPrompt st text).isSome = true ∧
    (table st out d ttl).isSome = true := by
  simp only [definesAllSix, Bool.and_eq_true] at h2
  obtain ⟨⟨⟨⟨⟨hsu, her⟩, hwa⟩, hin⟩, hde⟩, hpr⟩ := h2
  obtain ⟨s1, hs1⟩ := Option.isSome_iff_exists.mp hsu
  obtain ⟨s2, hs2⟩ := Option.isSome_iff_exists.mp her
  obtain ⟨s3, hs3⟩ := Option.isSome_iff_exists.mp hwa
  obtain ⟨s4, hs4⟩ := Option.isSome_iff_exists.mp hin
  obtain ⟨s5, hs5⟩ := Option.isSome_iff_exists.mp hde
  obtain ⟨s6, hs6⟩ := Option.isSome_iff_exists.mp hpr
  refine ⟨?_, ?_, ?_, ?_, ?_, ?_, ?_⟩
  · simp [success, themeCategory, h1, hs1]
  · simp [error, themeCategory, h1, hs2]
  · simp [warning, themeCategory, h1, hs3]
  · simp [info, themeCategory, h1, hs4]
  · simp [debug, themeCategory, h1, hs5]
  · simp [formatPrompt, themeCategory, h1, hs6]
  · by_cases hd : jsTruthy d = false ∨ typeofIsObject d = false
    · simp [table, hd, error, themeCategory, h1, hs2]
    · cases ttl with
      | none => simp [table, hd]
      | some ts =>
          by_cases hts : ts.isEmpty
          · simp [table, hd, hts]
          · simp [table, hd, hts, info, themeCategory, h1, hs4]

/-- Witness for C4 (amended) on the freshly constructed logger. -/
theorem C4_total_on_wellformed_theme_witness :
    newLogger.theme = JsVal.obj themesDefault ∧ definesAllSix themesDefault = true ∧
    (table newLogger [] JsVal.null (some "t")).isSome = true :=
  ⟨by decide, by decide,
   (C4_total_on_wellformed_theme newLogger themesDefault (by decide) (by decide)
     [] "x" none JsVal.null (some "t")).2.2.2.2.2.2⟩

/-- Code bug behind C5: since `typeof null === 'object'`, the guard in
`createTheme` lets `null` through, so `createTheme('dark', null)` replaces the
built-in `dark` entry instead of being a no-op. -/
theorem C5_createTheme_null_corrupts :
    registryLookup (createTheme THEMES "dark" JsVal.null) "dark" = some JsVal.null ∧
    registryLookup THEMES "dark" = some (JsVal.obj themesDark) ∧
    createTheme THEMES "dark" JsVal.null ≠ THEMES := by decide

/-- Claim C6: resolving a name absent from the registry behaves exactly like
resolving `default`, and with the built-in default entry intact it activates
the built-in default theme. -/
theorem C6_unknown_name_default (reg : Registry) (st : Logger) (s : String)
    (h : registryLookup reg s = none) :
    (setTheme reg st (JsVal.str s) none).theme
      = (setTheme reg st (JsVal.str "default") none).theme ∧
    (registryLookup reg "default" = some (JsVal.obj themesDefault) →
      (setTheme reg st (JsVal.str s) none).theme = JsVal.obj themesDefault) := by
  constructor
  · simp only [setTheme, setThemeStr, resolveName, h]
    cases hd : registryLookup reg "default" with
    | none => simp [themesDefaultEntry, hd]
    | some v =>
        by_cases hv : jsTruthy v = true
        · simp [themesDefaultEntry, hd, hv]
        · simp [themesDefaultEntry, hd, hv]
  · intro hdef
    simp [setTheme, setThemeStr, resolveName, h, themesDefaultEntry, hdef]

/-- Witness for C6 at the built-in registry and the name `nonexistent`. -/
theorem C6_unknown_name_default_witness :
    registryLookup THEMES "nonexistent" = none ∧
    (setTheme THEMES newLogger (JsVal.str "nonexistent") none).theme
      = (setTheme THEMES newLogger (JsVal.str "default") none).theme :=
  ⟨by decide, (C6_unknown_name_default THEMES newLogger "nonexistent" (by decide)).1⟩

/-- After `THEMES[k] = v`, looking up `k` yields `v`. -/
theorem registryLookup_set_same (reg : Registry) (k : String) (v : JsVal) :
    registryLookup (registrySet reg k v) k = some v := by
  unfold registryLookup registrySet
  rw [List.find?_cons_of_pos _ (by simp)]
  rfl

/-- Claim C7: `createTheme(x, spec)` followed by `setTheme(x)` activates
`spec`, so every semantic operation behaves exactly as on a logger whose
active theme is `spec` — independently of the previously active theme. -/
theorem C7_new_theme_used (reg : Registry) (st : Logger) (x : String)
    (spec : ThemeObj) (out : List OutLine) (text : String) (cs : Option String) :
    setTheme (createTheme reg x (JsVal.obj spec)) st (JsVal.str x) none
      = Logger.mk (JsVal.obj spec) st.enabled ∧
    success (setTheme (createTheme reg x (JsVal.obj spec)) st (JsVal.str x) none) out text cs
      = success (Logger.mk (JsVal.obj spec) st.enabled) out text cs ∧
    error (setTheme (createTheme reg x (JsVal.obj spec)) st (JsVal.str x) none) out text cs
      = error (Logger.mk (JsVal.obj spec) st.enabled) out text cs ∧
    warning (setTheme (createTheme reg x (JsVal.obj spec)) st (JsVal.str x) none) out text cs
      = warning (Logger.mk (JsVal.obj spec) st.enabled) out text cs ∧
    info (setTheme (createTheme reg x (JsVal.obj spec)) st (JsVal.str x) none) out text cs
      = info (Logger.mk (JsVal.obj spec) st.enabled) out text cs ∧
    debug (setTheme (createTheme reg x (JsVal.obj spec)) st (JsVal.str x) none) out text cs
      = debug (Logger.mk (JsVal.obj spec) st.enabled) out text cs := by
  have hset : setTheme (createTheme reg x (JsVal.obj spec)) st (JsVal.str x) none
      = Logger.mk (JsVal.obj spec) st.enabled := by
    simp [createTheme, typeofIsObject, setTheme, setThemeStr, resolveName,
          registryLookup_set_same, jsTruthy]
  refine ⟨hset, ?_, ?_, ?_, ?_, ?_⟩ <;> rw [hset]

/-- Claim C9: `table` on falsy/non-object data emits exactly one error-styled
line and no tabular rendering; on valid data with a truthy title it emits the
info-styled title and then the tabular rendering, returning the instance. -/
theorem C9_table_guard (st : Logger) (t : ThemeObj) (se si : StyleSpec)
    (h1 : st.theme = JsVal.obj t) (h2 : t.error = some se) (h3 : t.info = some si)
    (out : List OutLine) (d dv : JsVal) (ttl : String)
    (httl : ttl.isEmpty = false)
    (hbad : jsTruthy d = false ∨ typeofIsObject d = false)
    (hg1 : jsTruthy dv = true) (hg2 : typeofIsObject dv = true) :
    table st out d (some ttl)
      = some (st, out ++ [OutLine.line (colorize st.enabled
          "Invalid data for table display" se.color se.bgColor (jsOrStr none se.style))]) ∧
    table st out dv (some ttl)
      = some (st, out ++ [OutLine.line (colorize st.enabled ttl
          si.color si.bgColor (jsOrStr none si.style)), OutLine.tableOf dv]) := by
  constructor
  · simp only [table, if_pos hbad]
    simp [error, themeCategory, h1, h2, log]
  · have hcond : ¬(jsTruthy dv = false ∨ typeofIsObject dv = false) := by
      simp [hg1, hg2]
    simp only [table, if_neg hcond]
    simp [httl, info, themeCategory, h1, h3, log]

/-- Witness for C9: `table(null, "t")` and `table({...}, "t")` on the fresh
logger. -/
theorem C9_table_guard_witness :
    (jsTruthy JsVal.null = false ∨ typeofIsObject JsVal.null = false) ∧
    table newLogger [] JsVal.null (some "t")
      = some (newLogger, [] ++ [OutLine.line (colorize newLogger.enabled
          "Invalid data for table display"
          (StyleSpec.mk (some "red") none none).color
          (StyleSpec.mk (some "red") none none).bgColor
          (jsOrStr none (StyleSpec.mk (some "red") none none).style))]) :=
  ⟨Or.inl rfl,
   (C9_table_guard newLogger themesDefault
     (StyleSpec.mk (some "red") none none) (StyleSpec.mk (some "cyan") none none)
     (by decide) (by decide) (by decide) [] JsVal.null (JsVal.obj emptyThemeObj)
     "t" (by decide) (Or.inl rfl) rfl rfl).1⟩

end Colorize
